import Mathlib

/-!
Verification of the password-generator core (src/App.tsx / src/unnamed/part_000).

Shallow embedding conventions:
* `Math.log2` is embedded as `Real.logb 2` (exact real semantics).
* `Math.random()` produces a value in `[0,1)`, so `Math.floor(Math.random() *
  pool.length)` is an arbitrary index in `[0, pool.length)`.  The randomness
  source is embedded as an injected stream `rand : ℕ → ℕ`, the i-th draw being
  `rand i % pool.length`; every sequence of in-range indices is realizable.
* `performance.now()` wall-clock measurement is embedded as an injected
  `elapsed : ℚ` parameter (only recorded, never used in correctness logic).
* `Date.now().toString()` / `toLocaleTimeString()` are injected `id`/`timestamp`
  string parameters.
-/

namespace PasswordGenerator

/-- `type Options = { upper; lower; numbers; symbols : boolean }`. -/
structure Options where
  upper : Bool
  lower : Bool
  numbers : Bool
  symbols : Bool
deriving DecidableEq, Repr

/-- `type HistoryItem = { id; password; strength; timestamp : string; responseTime : number }`. -/
structure HistoryItem where
  id : String
  password : String
  strength : String
  timestamp : String
  responseTime : ℚ
deriving DecidableEq, Repr

/-- The record shape returned by `generatePasswordFromOptions`. -/
structure GenerateResult where
  password : String
  strength : String
  responseTime : ℚ
deriving DecidableEq, Repr

/-- The `CHARSETS` object literal. -/
structure Charsets where
  upper : String
  lower : String
  numbers : String
  symbols : String

/-- `const CHARSETS = { upper: ..., lower: ..., numbers: ..., symbols: ... }`. -/
def CHARSETS : Charsets :=
  { upper := "ABCDEFGHIJKLMNOPQRSTUVWXYZ"
    lower := "abcdefghijklmnopqrstuvwxyz"
    numbers := "0123456789"
    symbols := "!@#$%^&*()_+-=[]\x7b\x7d<>?" }

/-- `const evaluateStrength = (pw, poolSize) => { const entropy = pw.length *
Math.log2(poolSize); if (entropy < 40) return "Weak"; else if (entropy < 60)
return "Medium"; else return "Strong"; }`. -/
noncomputable def evaluateStrength (pw : String) (poolSize : ℕ) : String :=
  let entropy : ℝ := (pw.length : ℝ) * Real.logb 2 (poolSize : ℝ)
  if entropy < 40 then "Weak"
  else if entropy < 60 then "Medium"
  else "Strong"

/-- The pool-building prefix of `generatePasswordFromOptions`:
`let pool = ""; if (options.upper) pool += CHARSETS.upper; ...` in the fixed
source order upper, lower, numbers, symbols. -/
def buildPool (options : Options) : String :=
  let pool := ""
  let pool := if options.upper then pool ++ CHARSETS.upper else pool
  let pool := if options.lower then pool ++ CHARSETS.lower else pool
  let pool := if options.numbers then pool ++ CHARSETS.numbers else pool
  let pool := if options.symbols then pool ++ CHARSETS.symbols else pool
  pool

/-- The sampling loop of `generatePasswordFromOptions`:
`let result = ""; for (let i = 0; i < length; i++)
result += pool[Math.floor(Math.random() * pool.length)];`.
Draw `i` is the character at index `rand i % pool.length`. -/
def buildPassword (length : ℕ) (pool : String) (rand : ℕ → ℕ) : String :=
  String.mk ((List.range length).map fun i => pool.data.getD (rand i % pool.length) 'A')

/-- `const generatePasswordFromOptions = (length, options) => { ... }`:
build the pool; on an empty pool return the sentinel
`{ password: "", strength: "", responseTime: 0 }`; otherwise sample `length`
characters and score them with `evaluateStrength(result, pool.length)`. -/
noncomputable def generatePasswordFromOptions (length : ℕ) (options : Options)
    (rand : ℕ → ℕ) (elapsed : ℚ) : GenerateResult :=
  let pool := buildPool options
  if pool = "" then
    { password := "", strength := "", responseTime := 0 }
  else
    let result := buildPassword length pool rand
    { password := result
      strength := evaluateStrength result pool.length
      responseTime := elapsed }

/-- `Math.round(responseTime * 100) / 100` (JS `Math.round x = ⌊x + 1/2⌋`). -/
def roundTo2 (x : ℚ) : ℚ := (⌊x * 100 + 1 / 2⌋ : ℚ) / 100

/-- The core list update in `addToHistory`: `[newItem, ...prev].slice(0, 20)`. -/
def pushCapped (newItem : HistoryItem) (prev : List HistoryItem) : List HistoryItem :=
  (newItem :: prev).take 20

/-- `addToHistory(pwd, str, responseTime)`: build the new `HistoryItem` (with the
ambient fresh id and timestamp, rounding the response time to 2 decimals) and
prepend it, keeping the last 20 items. -/
def addToHistory (id timestamp : String) (pwd str : String) (responseTime : ℚ)
    (prev : List HistoryItem) : List HistoryItem :=
  let newItem : HistoryItem :=
    { id := id
      password := pwd
      strength := str
      timestamp := timestamp
      responseTime := roundTo2 responseTime }
  pushCapped newItem prev

/-- Iterated history growth: fold `[newItem, ...prev].slice(0, 20)` over a list
of generated items, starting from the empty history. -/
def runGenerations (items : List HistoryItem) : List HistoryItem :=
  items.foldl (fun h it => pushCapped it h) []

/-- The component state used by the event handlers of `App`. -/
structure AppState where
  length : ℕ
  options : Options
  password : String
  strength : String
  history : List HistoryItem
deriving Repr

/-- A key of `Options`, as in `toggleOption(key: keyof Options)`. -/
inductive OptionKey where
  | upper
  | lower
  | numbers
  | symbols
deriving DecidableEq, Repr

/-- `{ ...options, [key]: !options[key] }`. -/
def toggleFlag (key : OptionKey) (o : Options) : Options :=
  match key with
  | .upper => { o with upper := !o.upper }
  | .lower => { o with lower := !o.lower }
  | .numbers => { o with numbers := !o.numbers }
  | .symbols => { o with symbols := !o.symbols }

/-- `const generatePassword = () => { const {password: pwd, strength: str,
responseTime} = generatePasswordFromOptions(length, options); setPassword(pwd);
setStrength(str); addToHistory(pwd, str, responseTime); }`. -/
noncomputable def generatePassword (s : AppState) (rand : ℕ → ℕ) (elapsed : ℚ)
    (id timestamp : String) : AppState :=
  let r := generatePasswordFromOptions s.length s.options rand elapsed
  { s with
    password := r.password
    strength := r.strength
    history := addToHistory id timestamp r.password r.strength r.responseTime s.history }

/-- `const toggleOption = (key) => { const newOptions = { ...options, [key]:
!options[key] }; setOptions(newOptions); const {...} =
generatePasswordFromOptions(length, newOptions); ...; addToHistory(...); }`. -/
noncomputable def toggleOption (key : OptionKey) (s : AppState) (rand : ℕ → ℕ)
    (elapsed : ℚ) (id timestamp : String) : AppState :=
  let newOptions := toggleFlag key s.options
  let r := generatePasswordFromOptions s.length newOptions rand elapsed
  { s with
    options := newOptions
    password := r.password
    strength := r.strength
    history := addToHistory id timestamp r.password r.strength r.responseTime s.history }

/-- The pool described by the spec: "the concatenation (without deduplication)
of the character sets for all enabled options, in a fixed canonical order
(upper, lower, numbers, symbols)". -/
def canonicalPool (o : Options) : String :=
  (if o.upper then CHARSETS.upper else "") ++
  (if o.lower then CHARSETS.lower else "") ++
  (if o.numbers then CHARSETS.numbers else "") ++
  (if o.symbols then CHARSETS.symbols else "")

/-- Computable reformulation of the strength bands: for `poolSize ≥ 1`,
`len * log₂ poolSize < c ↔ poolSize ^ len < 2 ^ c`. -/
def evaluateStrengthNat (len poolSize : ℕ) : String :=
  if poolSize ^ len < 2 ^ 40 then "Weak"
  else if poolSize ^ len < 2 ^ 60 then "Medium"
  else "Strong"

lemma entropy_lt_iff (len p c : ℕ) (hp : 1 ≤ p) :
    (len : ℝ) * Real.logb 2 (p : ℝ) < (c : ℝ) ↔ p ^ len < 2 ^ c := by
  have hp' : (0 : ℝ) < (p : ℝ) := by exact_mod_cast hp
  have hppos : (0 : ℝ) < (p : ℝ) ^ len := pow_pos hp' len
  rw [← Real.logb_pow, Real.logb_lt_iff_lt_rpow one_lt_two hppos, Real.rpow_natCast]
  exact_mod_cast Iff.rfl

lemma evaluateStrength_eq_nat (pw : String) (p : ℕ) (hp : 1 ≤ p) :
    evaluateStrength pw p = evaluateStrengthNat pw.length p := by
  have h40 : ((pw.length : ℝ) * Real.logb 2 (p : ℝ) < 40) ↔ p ^ pw.length < 2 ^ 40 := by
    have h := entropy_lt_iff pw.length p 40 hp
    exact_mod_cast h
  have h60 : ((pw.length : ℝ) * Real.logb 2 (p : ℝ) < 60) ↔ p ^ pw.length < 2 ^ 60 := by
    have h := entropy_lt_iff pw.length p 60 hp
    exact_mod_cast h
  simp only [evaluateStrength, evaluateStrengthNat]
  rw [if_congr h40 rfl (if_congr h60 rfl rfl)]

lemma generate_of_empty (len : ℕ) (o : Options) (rand : ℕ → ℕ) (elapsed : ℚ)
    (h : buildPool o = "") :
    generatePasswordFromOptions len o rand elapsed =
      { password := "", strength := "", responseTime := 0 } := by
  simp [generatePasswordFromOptions, h]

lemma generate_of_ne (len : ℕ) (o : Options) (rand : ℕ → ℕ) (elapsed : ℚ)
    (h : buildPool o ≠ "") :
    generatePasswordFromOptions len o rand elapsed =
      { password := buildPassword len (buildPool o) rand
        strength := evaluateStrength (buildPassword len (buildPool o) rand) (buildPool o).length
        responseTime := elapsed } := by
  simp [generatePasswordFromOptions, h]

lemma buildPool_eq_canonical (o : Options) : buildPool o = canonicalPool o := by
  rcases o with ⟨u, l, n, s⟩
  cases u <;> cases l <;> cases n <;> cases s <;> decide

lemma buildPool_ne_empty (o : Options)
    (h : o.upper = true ∨ o.lower = true ∨ o.numbers = true ∨ o.symbols = true) :
    buildPool o ≠ "" := by
  rcases o with ⟨u, l, n, s⟩
  cases u <;> cases l <;> cases n <;> cases s <;> simp_all <;> decide

lemma buildPassword_length (len : ℕ) (pool : String) (rand : ℕ → ℕ) :
    (buildPassword len pool rand).length = len := by
  show ((List.range len).map fun i => pool.data.getD (rand i % pool.length) 'A').length = len
  simp

lemma buildPassword_mem (len : ℕ) (pool : String) (rand : ℕ → ℕ) (h : pool ≠ "")
    (c : Char) (hc : c ∈ (buildPassword len pool rand).data) : c ∈ pool.data := by
  have hpos : 0 < pool.data.length := by
    rcases pool with ⟨l⟩
    rcases l with _ | ⟨a, t⟩
    · simp at h
    · simp
  simp only [buildPassword] at hc
  rcases List.mem_map.mp hc with ⟨i, _, hi⟩
  have hlt : rand i % pool.length < pool.data.length := Nat.mod_lt _ hpos
  rw [← hi, List.getD_eq_getElem pool.data 'A' hlt]
  exact List.getElem_mem hlt

lemma length_pushCapped (it : HistoryItem) (h : List HistoryItem) :
    (pushCapped it h).length = min (h.length + 1) 20 := by
  simp only [pushCapped, List.length_take, List.length_cons]
  omega

lemma head?_pushCapped (it : HistoryItem) (h : List HistoryItem) :
    (pushCapped it h).head? = some it := by
  rw [pushCapped, show (20 : ℕ) = 19 + 1 from rfl, List.take_succ_cons]
  rfl

lemma take_append_take {α : Type} (a b : List α) (n : ℕ) :
    (a ++ b.take n).take n = (a ++ b).take n := by
  rw [List.take_append_eq_append_take, List.take_append_eq_append_take, List.take_take]
  rw [Nat.min_eq_left (Nat.sub_le n a.length)]

lemma foldl_pushCapped (items : List HistoryItem) (acc : List HistoryItem)
    (hacc : acc.take 20 = acc) :
    items.foldl (fun h it => pushCapped it h) acc = (items.reverse ++ acc).take 20 := by
  induction items generalizing acc with
  | nil => simpa using hacc
  | cons x l ih =>
      rw [List.foldl_cons, ih (pushCapped x acc) (by simp [pushCapped, List.take_take])]
      rw [pushCapped, take_append_take]
      simp [List.append_assoc]

lemma runGenerations_eq (items : List HistoryItem) :
    runGenerations items = items.reverse.take 20 := by
  simpa using foldl_pushCapped items [] rfl

lemma runGenerations_of_length_21 (items : List HistoryItem) (h : items.length = 21) :
    runGenerations items = items.tail.reverse := by
  rcases items with _ | ⟨a, t⟩
  · simp at h
  · have ht : t.length = 20 := by simpa using h
    rw [runGenerations_eq]
    simp [List.take_append_eq_append_take, ht]

lemma roundTo2_zero : roundTo2 0 = 0 := by
  have h : ⌊(0 * 100 + 1 / 2 : ℚ)⌋ = 0 := by
    rw [Int.floor_eq_zero_iff, Set.mem_Ico]
    constructor <;> norm_num
  rw [roundTo2, h]
  norm_num

lemma generatePassword_history_eq (s : AppState) (rand : ℕ → ℕ) (elapsed : ℚ)
    (id ts : String) :
    (generatePassword s rand elapsed id ts).history =
      pushCapped
        { id := id
          password := (generatePasswordFromOptions s.length s.options rand elapsed).password
          strength := (generatePasswordFromOptions s.length s.options rand elapsed).strength
          timestamp := ts
          responseTime :=
            roundTo2 (generatePasswordFromOptions s.length s.options rand elapsed).responseTime }
        s.history := rfl

lemma toggleOption_history_eq (key : OptionKey) (s : AppState) (rand : ℕ → ℕ)
    (elapsed : ℚ) (id ts : String) :
    (toggleOption key s rand elapsed id ts).history =
      pushCapped
        { id := id
          password :=
            (generatePasswordFromOptions s.length (toggleFlag key s.options) rand elapsed).password
          strength :=
            (generatePasswordFromOptions s.length (toggleFlag key s.options) rand elapsed).strength
          timestamp := ts
          responseTime :=
            roundTo2 (generatePasswordFromOptions s.length (toggleFlag key s.options) rand
              elapsed).responseTime }
        s.history := rfl

/-- Claim C1, counterexample: with all four flags false the code does not fail
with a distinct EmptyPoolError; at length 12 it returns the normal-shaped
record carrying an empty password (and empty strength, responseTime 0). -/
theorem claim_C1_counterexample :
    generatePasswordFromOptions 12 ⟨false, false, false, false⟩ (fun _ => 0) 0 =
      { password := "", strength := "", responseTime := 0 } :=
  generate_of_empty 12 ⟨false, false, false, false⟩ (fun _ => 0) 0 (by decide)

/-- Claim C1 (amended): for every Options value with all four flags false,
generate returns the sentinel record with empty password, empty strength and
responseTime 0 — a normal-shaped result rather than a distinct error value —
and in particular never returns a nonempty password. -/
theorem claim_C1_amended (len : ℕ) (o : Options) (rand : ℕ → ℕ) (elapsed : ℚ)
    (h : o.upper = false ∧ o.lower = false ∧ o.numbers = false ∧ o.symbols = false) :
    generatePasswordFromOptions len o rand elapsed =
      { password := "", strength := "", responseTime := 0 } := by
  obtain ⟨hu, hl, hn, hs⟩ := h
  rcases o with ⟨u, l, n, s⟩
  simp only at hu hl hn hs
  subst hu hl hn hs
  exact generate_of_empty len ⟨false, false, false, false⟩ rand elapsed (by decide)

/-- Witness for the amended C1 at a concrete input. -/
theorem claim_C1_amended_witness :
    generatePasswordFromOptions 5 ⟨false, false, false, false⟩ (fun _ => 1) 2 =
      { password := "", strength := "", responseTime := 0 } :=
  claim_C1_amended 5 ⟨false, false, false, false⟩ (fun _ => 1) 2 ⟨rfl, rfl, rfl, rfl⟩

/-- Claim C2: for every length ≥ 1 and Options with at least one flag enabled,
generate returns a password of exactly `length` characters, every character of
which belongs to the pool built from the enabled charsets. -/
theorem claim_C2 (len : ℕ) (o : Options) (rand : ℕ → ℕ) (elapsed : ℚ)
    (hlen : 1 ≤ len)
    (ho : o.upper = true ∨ o.lower = true ∨ o.numbers = true ∨ o.symbols = true) :
    (generatePasswordFromOptions len o rand elapsed).password.length = len ∧
    ∀ c ∈ (generatePasswordFromOptions len o rand elapsed).password.data,
      c ∈ (buildPool o).data := by
  have hne := buildPool_ne_empty o ho
  rw [generate_of_ne len o rand elapsed hne]
  exact ⟨buildPassword_length len (buildPool o) rand,
    fun c hc => buildPassword_mem len (buildPool o) rand hne c hc⟩

/-- Witness for C2 at length 4 with only numbers enabled. -/
theorem claim_C2_witness :
    (generatePasswordFromOptions 4 ⟨false, false, true, false⟩ (fun i => i) 0).password.length
      = 4 ∧
    ∀ c ∈ (generatePasswordFromOptions 4 ⟨false, false, true, false⟩ (fun i => i) 0).password.data,
      c ∈ (buildPool ⟨false, false, true, false⟩).data :=
  claim_C2 4 ⟨false, false, true, false⟩ (fun i => i) 0 (by decide) (by decide)

/-- Claim C3: for every Options value, the pool built by generate equals the
concatenation (without deduplication) of exactly the enabled charsets in the
canonical order upper, lower, numbers, symbols, and on the non-empty-pool path
the poolSize handed to the strength evaluator is that concatenation's length. -/
theorem claim_C3 (o : Options) (len : ℕ) (rand : ℕ → ℕ) (elapsed : ℚ) :
    buildPool o = canonicalPool o ∧
    (buildPool o ≠ "" →
      (generatePasswordFromOptions len o rand elapsed).strength =
        evaluateStrength (generatePasswordFromOptions len o rand elapsed).password
          (canonicalPool o).length) := by
  refine ⟨buildPool_eq_canonical o, fun h => ?_⟩
  rw [generate_of_ne len o rand elapsed h, buildPool_eq_canonical o]

/-- Witness for C3 on the default option set upper+lower+numbers. -/
theorem claim_C3_witness :
    buildPool ⟨true, true, true, false⟩ = canonicalPool ⟨true, true, true, false⟩ ∧
    (generatePasswordFromOptions 12 ⟨true, true, true, false⟩ (fun i => 3 * i) 1).strength =
      evaluateStrength
        (generatePasswordFromOptions 12 ⟨true, true, true, false⟩ (fun i => 3 * i) 1).password
        (canonicalPool ⟨true, true, true, false⟩).length :=
  ⟨(claim_C3 ⟨true, true, true, false⟩ 12 (fun i => 3 * i) 1).1,
    (claim_C3 ⟨true, true, true, false⟩ 12 (fun i => 3 * i) 1).2 (by decide)⟩

/-- Claim C4: for poolSize ≥ 1 and E = length(pw)·log₂(poolSize), the label is
Weak iff E < 40, Medium iff 40 ≤ E < 60, and Strong iff 60 ≤ E; the boundary
entropies 40 and 60 belong to the higher band. -/
theorem claim_C4 (pw : String) (p : ℕ) (hp : 1 ≤ p) :
    (evaluateStrength pw p = "Weak" ↔
      (pw.length : ℝ) * Real.logb 2 (p : ℝ) < 40) ∧
    (evaluateStrength pw p = "Medium" ↔
      40 ≤ (pw.length : ℝ) * Real.logb 2 (p : ℝ) ∧
        (pw.length : ℝ) * Real.logb 2 (p : ℝ) < 60) ∧
    (evaluateStrength pw p = "Strong" ↔
      60 ≤ (pw.length : ℝ) * Real.logb 2 (p : ℝ)) := by
  by_cases h40 : (pw.length : ℝ) * Real.logb 2 (p : ℝ) < 40
  · have he : evaluateStrength pw p = "Weak" := by
      simp only [evaluateStrength]
      rw [if_pos h40]
    rw [he]
    refine ⟨⟨fun _ => h40, fun _ => rfl⟩, ?_, ?_⟩
    · exact ⟨fun hc => absurd hc (by decide), fun hc => absurd h40 (not_lt.mpr hc.1)⟩
    · exact ⟨fun hc => absurd hc (by decide),
        fun hc => absurd h40 (not_lt.mpr (by linarith))⟩
  · by_cases h60 : (pw.length : ℝ) * Real.logb 2 (p : ℝ) < 60
    · have he : evaluateStrength pw p = "Medium" := by
        simp only [evaluateStrength]
        rw [if_neg h40, if_pos h60]
      rw [he]
      refine ⟨⟨fun hc => absurd hc (by decide), fun hc => absurd hc h40⟩, ?_, ?_⟩
      · exact ⟨fun _ => ⟨not_lt.mp h40, h60⟩, fun _ => rfl⟩
      · exact ⟨fun hc => absurd hc (by decide), fun hc => absurd h60 (not_lt.mpr hc)⟩
    · have he : evaluateStrength pw p = "Strong" := by
        simp only [evaluateStrength]
        rw [if_neg h40, if_neg h60]
      rw [he]
      refine ⟨⟨fun hc => absurd hc (by decide), fun hc => absurd hc h40⟩, ?_, ?_⟩
      · exact ⟨fun hc => absurd hc (by decide), fun hc => absurd hc.2 h60⟩
      · exact ⟨fun _ => not_lt.mp h60, fun _ => rfl⟩

/-- Witness for C4: a 2-character password over pool size 2 has entropy 2 and
the Weak band test holds. -/
theorem claim_C4_witness :
    evaluateStrength "ab" 2 = "Weak" ↔
      (("ab".length : ℕ) : ℝ) * Real.logb 2 ((2 : ℕ) : ℝ) < 40 :=
  (claim_C4 "ab" 2 (by decide)).1

/-- Claim C5: the strength label depends only on the password's length and the
pool size, never on the characters themselves. -/
theorem claim_C5 (pw1 pw2 : String) (p : ℕ) (h : pw1.length = pw2.length) :
    evaluateStrength pw1 p = evaluateStrength pw2 p := by
  simp only [evaluateStrength, h]

/-- Witness for C5 on two distinct equal-length passwords. -/
theorem claim_C5_witness : evaluateStrength "abcd" 10 = evaluateStrength "wxyz" 10 :=
  claim_C5 "abcd" "wxyz" 10 rfl

/-- Claim C6: with poolSize = 1 the entropy estimate length·log₂1 is 0, so
every password of every length is labeled Weak. -/
theorem claim_C6 (pw : String) :
    evaluateStrength pw 1 = "Weak" ∧
      (pw.length : ℝ) * Real.logb 2 ((1 : ℕ) : ℝ) = 0 := by
  have h0 : (pw.length : ℝ) * Real.logb 2 ((1 : ℕ) : ℝ) = 0 := by
    rw [Nat.cast_one, Real.logb_one, mul_zero]
  refine ⟨?_, h0⟩
  simp only [evaluateStrength]
  rw [if_pos (by rw [h0]; norm_num)]

/-- Claim C7: addToHistory prepends the freshly built item and truncates to at
most 20 entries; consequently, after 21 generations starting from the empty
history, the history holds exactly the last 20 generated items, newest first,
with the oldest generation evicted. -/
theorem claim_C7 (id ts pwd str : String) (rt : ℚ) (h : List HistoryItem)
    (items : List HistoryItem) (hlen : items.length = 21) :
    addToHistory id ts pwd str rt h =
      ({ id := id, password := pwd, strength := str, timestamp := ts,
         responseTime := roundTo2 rt } :: h).take 20 ∧
    runGenerations items = items.tail.reverse ∧
    (runGenerations items).length = 20 := by
  refine ⟨rfl, runGenerations_of_length_21 items hlen, ?_⟩
  rw [runGenerations_of_length_21 items hlen]
  simp only [List.length_reverse, List.length_tail, hlen]

/-- Witness for C7: 21 identical generations leave exactly 20 retained items. -/
theorem claim_C7_witness :
    (runGenerations (List.replicate 21
      { id := "i", password := "p", strength := "s", timestamp := "t",
        responseTime := 0 })).length = 20 :=
  (claim_C7 "a" "b" "c" "d" 0 []
    (List.replicate 21
      { id := "i", password := "p", strength := "s", timestamp := "t",
        responseTime := 0 }) rfl).2.2

/-- Claim C8: the worked examples. Length 12 with upper, lower and numbers
enabled gives pool size 62 and entropy 12·log₂62 ∈ [71, 72) (≈ 71.4), which is
at least 60, so the generated password is labeled Strong; length 4 with only
numbers gives pool size 10 and entropy 4·log₂10 ∈ [13, 14) (≈ 13.3), below 40,
so it is labeled Weak. -/
theorem claim_C8 (rand : ℕ → ℕ) (elapsed : ℚ) :
    (buildPool ⟨true, true, true, false⟩).length = 62 ∧
    (generatePasswordFromOptions 12 ⟨true, true, true, false⟩ rand elapsed).strength
      = "Strong" ∧
    60 ≤ (12 : ℝ) * Real.logb 2 62 ∧
    71 ≤ (12 : ℝ) * Real.logb 2 62 ∧ (12 : ℝ) * Real.logb 2 62 < 72 ∧
    (buildPool ⟨false, false, true, false⟩).length = 10 ∧
    (generatePasswordFromOptions 4 ⟨false, false, true, false⟩ rand elapsed).strength
      = "Weak" ∧
    (4 : ℝ) * Real.logb 2 10 < 40 ∧
    13 ≤ (4 : ℝ) * Real.logb 2 10 ∧ (4 : ℝ) * Real.logb 2 10 < 14 := by
  have h62 : (buildPool ⟨true, true, true, false⟩).length = 62 := by decide
  have h10 : (buildPool ⟨false, false, true, false⟩).length = 10 := by decide
  have hs : (generatePasswordFromOptions 12 ⟨true, true, true, false⟩ rand elapsed).strength
      = "Strong" := by
    rw [generate_of_ne 12 ⟨true, true, true, false⟩ rand elapsed (by decide)]
    show evaluateStrength (buildPassword 12 (buildPool ⟨true, true, true, false⟩) rand)
      (buildPool ⟨true, true, true, false⟩).length = "Strong"
    rw [h62, evaluateStrength_eq_nat _ 62 (by norm_num), buildPassword_length]
    decide
  have hw : (generatePasswordFromOptions 4 ⟨false, false, true, false⟩ rand elapsed).strength
      = "Weak" := by
    rw [generate_of_ne 4 ⟨false, false, true, false⟩ rand elapsed (by decide)]
    show evaluateStrength (buildPassword 4 (buildPool ⟨false, false, true, false⟩) rand)
      (buildPool ⟨false, false, true, false⟩).length = "Weak"
    rw [h10, evaluateStrength_eq_nat _ 10 (by norm_num), buildPassword_length]
    decide
  have e60 := entropy_lt_iff 12 62 60 (by norm_num)
  have e71 := entropy_lt_iff 12 62 71 (by norm_num)
  have e72 := entropy_lt_iff 12 62 72 (by norm_num)
  have e40 := entropy_lt_iff 4 10 40 (by norm_num)
  have e13 := entropy_lt_iff 4 10 13 (by norm_num)
  have e14 := entropy_lt_iff 4 10 14 (by norm_num)
  norm_num at e60 e71 e72 e40 e13 e14
  exact ⟨h62, hs, e60, e71, e72, h10, hw, e40, e13, e14⟩

/-- Claim C9: with all options false the returned record's strength field is
the empty string — a value outside the label set Weak, Medium, Strong — and its
responseTime is 0. -/
theorem claim_C9 (len : ℕ) (rand : ℕ → ℕ) (elapsed : ℚ) (o : Options)
    (h : o = ⟨false, false, false, false⟩) :
    (generatePasswordFromOptions len o rand elapsed).strength = "" ∧
    (generatePasswordFromOptions len o rand elapsed).strength ∉
      (["Weak", "Medium", "Strong"] : List String) ∧
    (generatePasswordFromOptions len o rand elapsed).responseTime = 0 := by
  subst h
  rw [generate_of_empty len ⟨false, false, false, false⟩ rand elapsed (by decide)]
  exact ⟨rfl, by decide, rfl⟩

/-- Witness for C9 at length 7. -/
theorem claim_C9_witness :
    (generatePasswordFromOptions 7 ⟨false, false, false, false⟩ (fun _ => 2) 5).strength
      = "" ∧
    (generatePasswordFromOptions 7 ⟨false, false, false, false⟩ (fun _ => 2) 5).strength ∉
      (["Weak", "Medium", "Strong"] : List String) ∧
    (generatePasswordFromOptions 7 ⟨false, false, false, false⟩ (fun _ => 2) 5).responseTime
      = 0 :=
  claim_C9 7 (fun _ => 2) 5 ⟨false, false, false, false⟩ rfl

/-- Claim C10: each call of the generatePassword handler (and of toggleOption)
pushes exactly one new item onto the front of the capped history — also when
the pool is empty and generation fails, in which case the recorded item has
empty password, empty strength and responseTime 0. -/
theorem claim_C10 (s : AppState) (key : OptionKey) (rand : ℕ → ℕ) (elapsed : ℚ)
    (id ts : String) (hcap : s.history.length < 20) :
    (generatePassword s rand elapsed id ts).history.length = s.history.length + 1 ∧
    (toggleOption key s rand elapsed id ts).history.length = s.history.length + 1 ∧
    (generatePassword s rand elapsed id ts).history.head? =
      some { id := id
             password := (generatePasswordFromOptions s.length s.options rand elapsed).password
             strength := (generatePasswordFromOptions s.length s.options rand elapsed).strength
             timestamp := ts
             responseTime :=
               roundTo2 (generatePasswordFromOptions s.length s.options rand
                 elapsed).responseTime } ∧
    (s.options = ⟨false, false, false, false⟩ →
      (generatePassword s rand elapsed id ts).history.head? =
        some { id := id, password := "", strength := "", timestamp := ts,
               responseTime := 0 }) := by
  refine ⟨?_, ?_, ?_, ?_⟩
  · rw [generatePassword_history_eq, length_pushCapped]
    omega
  · rw [toggleOption_history_eq, length_pushCapped]
    omega
  · rw [generatePassword_history_eq, head?_pushCapped]
  · intro ho
    rw [generatePassword_history_eq, head?_pushCapped, ho,
      generate_of_empty s.length ⟨false, false, false, false⟩ rand elapsed (by decide)]
    simp [roundTo2_zero]

/-- Witness for C10: a failed generation (all options off) still records one
item, with empty password and strength. -/
theorem claim_C10_witness :
    (generatePassword
      { length := 5, options := ⟨false, false, false, false⟩, password := "",
        strength := "", history := [] } (fun _ => 0) 3 "id1" "t1").history.head? =
      some { id := "id1", password := "", strength := "", timestamp := "t1",
             responseTime := 0 } :=
  (claim_C10
    { length := 5, options := ⟨false, false, false, false⟩, password := "",
      strength := "", history := [] } OptionKey.upper (fun _ => 0) 3 "id1" "t1"
    (by decide)).2.2.2 rfl

end PasswordGenerator
